import Mathlib

/-!
Verification of the Signal-protocol core of this repository
(`signalProtocol` / `e2eeService` / `mediaEncryption` services).

The embedding models byte strings and base64 strings symbolically: the
cryptographic primitives of libsodium (generichash, scalarmult, AEAD,
detached signatures) are free constructors of an inductive type `V`,
except that X25519 scalar multiplication between two honestly generated
keypairs is normalised to an unordered shared secret (`V.shared`), which
is the defining property DH relies on.  Keypairs are numbered; the
base64 rendering of public key `n` is modelled as the decimal numeral of
`n` (an injective encoding with the same "first 16 characters" prefix
structure the code slices on).  `toBase64`/`fromBase64` are lossless in
the code and are the identity here.  The two device-local stores
(expo-secure-store and AsyncStorage) are explicit maps, and the RNG is a
counter threaded through a `World` record; every Diffie-Hellman result
the code computes is appended to `World.dhLog`.
-/

set_option maxRecDepth 10000

/-- Error taxonomy: one constructor per distinct failure the modelled code
can raise (by its thrown message), plus `decryptionFailed`, the media-layer
composite error name the specification uses (the code never constructs it). -/
inductive Err where
  | invalidBundleSignature
  | signedPrekeyNotFound
  | noSession
  | authenticationFailure
  | typeError
  | decryptionFailed
  deriving DecidableEq

/-- Symbolic byte/base64 values.  `lit` is a concrete JS string; `pub n` /
`priv n` are the two halves of keypair number `n`; `shared a b` is the
X25519 secret of keypairs `a` and `b` (stored with `a ≤ b`); `dhv` is
scalarmult applied to non-keypair operands; `gh1`/`ghK` are
`crypto_generichash` without and with a key; `cat2` is byte
concatenation; `slc v a b` is `v.slice(a, b)`; `sig d k` is a detached
signature of `d` under signing key `k`; `rnd n` is the `n`-th random
draw; `aeadE pt k n ad` is the XChaCha20-Poly1305 ciphertext; `adp sid c`
is the associated-data string `sid ++ ":" ++ c`. -/
inductive V where
  | nullv : V
  | lit : String → V
  | pub : Nat → V
  | priv : Nat → V
  | shared : Nat → Nat → V
  | dhv : V → V → V
  | gh1 : Nat → V → V
  | ghK : Nat → V → V → V
  | cat2 : V → V → V
  | slc : V → Nat → Nat → V
  | sig : V → V → V
  | rnd : Nat → V
  | aeadE : V → V → V → V → V
  | adp : V → Nat → V
  deriving DecidableEq

/-- JS truthiness of a modelled value ("" and null are falsy). -/
def truthy : V → Bool
  | .nullv => false
  | .lit "" => false
  | _ => true

/-- JS truthiness of a possibly-absent value. -/
def truthyO : Option V → Bool
  | none => false
  | some v => truthy v

/-- Characters `[a, b)` of `s`, i.e. JS `s.slice(a, b)`. -/
def strSub (s : String) (a b : Nat) : String := (s.take b).drop a

/-- Decimal digits of `n` (24 digits of fuel, enough for every number the
code renders). -/
def decChars (fuel n : Nat) : List Char :=
  match fuel with
  | 0 => []
  | f + 1 => if n < 10 then [Nat.digitChar n] else decChars f (n / 10) ++ [Nat.digitChar (n % 10)]

/-- JS number-to-string (template-literal) rendering of a natural. -/
def decStr (n : Nat) : String := String.mk (decChars 24 n)

/-- `v.slice(a, b)`: concrete on strings and on the rendering of a public
key, symbolic on derived byte strings. -/
def slcV : V → Nat → Nat → V
  | .lit s, a, b => .lit (strSub s a b)
  | .pub n, a, b => .lit (strSub (decStr n) a b)
  | v, a, b => .slc v a b

/-- Keys of the two device stores, one constructor per string namespace the
code uses (`identity_private`, `identity_public`,
`current_signed_prekey_id`, `signed_prekey_<id>`, `otp_<id>`,
`session_<sessionId>`). -/
inductive SKey where
  | identityPrivate
  | identityPublic
  | currentSignedPrekeyId
  | signedPrekey : String → SKey
  | otp : String → SKey
  | session : V → SKey
  deriving DecidableEq

/-- `bundle.signedPrekey`. -/
structure SPK where
  id : String
  publicKey : V
  signature : V
  deriving DecidableEq

/-- One entry of `bundle.oneTimePrekeys`. -/
structure OTP where
  id : String
  publicKey : V
  deriving DecidableEq

/-- A prekey bundle as fetched from the server. -/
structure Bundle where
  identityKey : V
  signedPrekey : SPK
  oneTimePrekeys : List OTP
  deriving DecidableEq

/-- The X3DH handshake header returned by `initiateSession`. -/
structure InitHeader where
  identityKey : V
  ephemeralKey : V
  usedOneTimePrekey : Option String
  senderRatchetKey : V
  deriving DecidableEq

/-- Result of `initiateSession`. -/
structure InitResult where
  sessionId : V
  initialHeader : InitHeader
  deriving DecidableEq

/-- Result of `acceptSession`. -/
structure AcceptResult where
  sessionId : V
  deriving DecidableEq

/-- An envelope header `{senderRatchetKey, messageCounter, previousChainLength}`. -/
structure Header where
  senderRatchetKey : V
  messageCounter : Nat
  previousChainLength : Nat
  deriving DecidableEq

/-- A wire envelope `{ciphertext, header, nonce}`. -/
structure Envelope where
  ciphertext : V
  header : Header
  nonce : V
  deriving DecidableEq

/-- The per-peer Double Ratchet session state, exactly the object the code
persists as JSON under `session_<sessionId>`.  `skippedMessageKeys` maps the
pair modelled by the string key `<senderRatchetKey>:<counter>` to a stored
message key. -/
structure SessionState where
  sessionId : V
  peerIdentityKey : V
  rootKey : V
  sendingChainKey : Option V
  sendingChainLength : Nat
  receivingChainKey : Option V
  receivingChainLength : Nat
  senderRatchetPrivate : Option V
  senderRatchetPublic : Option V
  receiverRatchetPublic : V
  previousSendingChainLength : Nat
  skippedMessageKeys : V → Nat → Option V

/-- A value held by AsyncStorage: a base64 string, a plain string, or a
JSON-serialised session state. -/
inductive AVal where
  | vv : V → AVal
  | sv : String → AVal
  | sess : SessionState → AVal

/-- Device state: the secure store (private keys), AsyncStorage (public
material and sessions), the RNG counter, the clock (`Date.now()`), and the
log of all DH outputs computed so far. -/
structure World where
  secure : SKey → Option V
  async : SKey → Option AVal
  rng : Nat
  now : Nat
  dhLog : List V

/-- `crypto_scalarmult`: for two honestly generated keypairs the result is
the shared secret of the unordered pair (the X25519 property both sides of
X3DH rely on); otherwise an uninterpreted function of the operands. -/
def performDH (sk pk : V) : V :=
  match sk, pk with
  | .priv a, .pub b => .shared (min a b) (max a b)
  | a, b => .dhv a b

/-- `e2eeService.sign`: detached Ed25519 signature. -/
def e2eeSign (data sk : V) : V := .sig data sk

/-- `e2eeService.verify`: a signature verifies exactly when it was produced
over the same data with the private half of the given public key
(EUF-CMA idealisation). -/
def e2eeVerify (data s pk : V) : Bool :=
  match s, pk with
  | .sig d sk, .pub m => if d = data ∧ sk = .priv m then true else false
  | _, _ => false

/-- `e2eeService.hkdf ikm salt info len`: extract
`prk = generichash(32, ikm, salt)` then expand
`okm = generichash(len, prk ‖ info)`. -/
def hkdf (ikm : V) (salt info : String) (len : Nat) : V :=
  .gh1 len (.cat2 (.ghK 32 ikm (.lit salt)) (.lit info))

/-- One chain-key advance: `hkdf(ck, 'ChainKey', 'Advance', 32)`. -/
def advanceCK (ck : V) : V := hkdf ck "ChainKey" "Advance" 32

/-- `n` successive chain-key advances. -/
def advN : Nat → V → V
  | 0, ck => ck
  | n + 1, ck => advN n (advanceCK ck)

/-- `signalProtocol.deriveMessageKey chainKey index`: advance the chain key
`index` times, then derive `hkdf(ck, 'MessageKey', toString index, 32)`. -/
def deriveMessageKey (ck : V) (index : Nat) : V :=
  hkdf (advN index ck) "MessageKey" (decStr index) 32

/-- `e2eeService.deriveInitialKeys dh1 dh2 dh3 dh4?`: concatenate the DH
outputs in order, derive 64 bytes with salt `WhispChat-X3DH-V1` and info
`RootChainKeys`, and split into `(rootKey, chainKey)`. -/
def deriveInitialKeys (dh1 dh2 dh3 : V) (dh4 : Option V) : V × V :=
  let combined :=
    match dh4 with
    | some d4 => V.cat2 dh1 (.cat2 dh2 (.cat2 dh3 d4))
    | none => V.cat2 dh1 (.cat2 dh2 dh3)
  let dk := hkdf combined "WhispChat-X3DH-V1" "RootChainKeys" 64
  (slcV dk 0 32, slcV dk 32 64)

/-- `e2eeService.encryptAEAD`. -/
def encryptAEAD (pt key nonce ad : V) : V := .aeadE pt key nonce ad

/-- `e2eeService.decryptAEAD`: succeeds exactly on a well-formed AEAD
ciphertext whose key, nonce and associated data all match; every other
input fails tag verification (the code maps any such failure to its
`AEAD decryption failed` error). -/
def decryptAEAD (ct key nonce ad : V) : Except Err V :=
  match ct with
  | .aeadE pt k n a =>
      if k = key ∧ n = nonce ∧ a = ad then .ok pt else .error .authenticationFailure
  | _ => .error .authenticationFailure

/-- `signalProtocol.getSessionState`. -/
def getSess (w : World) (sid : V) : Option SessionState :=
  match w.async (.session sid) with
  | some (.sess st) => some st
  | _ => none

/-- `signalProtocol.saveSessionState`. -/
def saveSess (w : World) (sid : V) (st : SessionState) : World :=
  { w with async := fun k => if k = .session sid then some (.sess st) else w.async k }

/-- `generatePrekeyBundle`: one-time-prekey generation loop; each iteration
generates keypair `rng`, stores its private half under
`otp_<now>_<i>` and appends the public half to the bundle list. -/
def genOTPs (w : World) (count : Nat) : World × List OTP :=
  (List.range count).foldl
    (fun acc i =>
      let kn := acc.1.rng
      let pid := decStr acc.1.now ++ "_" ++ decStr i
      let w' : World :=
        { acc.1 with
          rng := kn + 1
          secure := fun k => if k = .otp pid then some (.priv kn) else acc.1.secure k }
      (w', acc.2 ++ [⟨pid, .pub kn⟩]))
    (w, [])

/-- `signalProtocol.generatePrekeyBundle`: ensure an identity keypair
exists (generating and persisting one if absent), generate and sign a
fresh signed prekey (id `Date.now()`), record it as current, generate
`count` one-time prekeys, and return the public bundle. -/
def generatePrekeyBundle (w : World) (count : Nat) : World × Bundle :=
  let idStep : V × V × World :=
    match w.secure .identityPrivate with
    | some p =>
        (p,
         (match w.async .identityPublic with
          | some (.vv v) => v
          | _ => .nullv),
         w)
    | none =>
        let kn := w.rng
        (.priv kn, .pub kn,
         { w with
           rng := kn + 1
           secure := fun k => if k = .identityPrivate then some (.priv kn) else w.secure k
           async := fun k => if k = .identityPublic then some (.vv (.pub kn)) else w.async k })
  let idPriv := idStep.1
  let idPub := idStep.2.1
  let w1 := idStep.2.2
  let skn := w1.rng
  let spkId := decStr w1.now
  let sg := e2eeSign (.pub skn) idPriv
  let w2 : World :=
    { w1 with
      rng := skn + 1
      secure := fun k => if k = .signedPrekey spkId then some (.priv skn) else w1.secure k
      async := fun k => if k = .currentSignedPrekeyId then some (.sv spkId) else w1.async k }
  let otpStep := genOTPs w2 count
  (otpStep.1,
   { identityKey := idPub
     signedPrekey := { id := spkId, publicKey := .pub skn, signature := sg }
     oneTimePrekeys := otpStep.2 })

/-- `signalProtocol.initiateSession` (Alice, X3DH initiator): verify the
bundle signature (rejecting with `invalidBundleSignature` before any DH is
computed), generate an ephemeral keypair, compute DH1..DH4 (DH4 only when
the bundle offers a one-time prekey), derive the root key, generate the
sender ratchet keypair, perform one more DH against the signed prekey,
derive `(newRootKey, sendingChainKey)`, persist the session under the
first 16 characters of the peer's base64 identity key and return the
handshake header. -/
def initiateSession (w : World) (b : Bundle) : World × Except Err InitResult :=
  if e2eeVerify b.signedPrekey.publicKey b.signedPrekey.signature b.identityKey = false then
    (w, .error .invalidBundleSignature)
  else
    let aliceIdentityPrivate := w.secure .identityPrivate
    let aliceIdentityPublic :=
      match w.async .identityPublic with
      | some (.vv v) => v
      | _ => .nullv
    let en := w.rng
    let w1 : World := { w with rng := en + 1 }
    match aliceIdentityPrivate with
    | none => (w1, .error .typeError)
    | some idPriv =>
      let dh1 := performDH idPriv b.signedPrekey.publicKey
      let w2 : World := { w1 with dhLog := w1.dhLog ++ [dh1] }
      let dh2 := performDH (.priv en) b.identityKey
      let w3 : World := { w2 with dhLog := w2.dhLog ++ [dh2] }
      let dh3 := performDH (.priv en) b.signedPrekey.publicKey
      let w4 : World := { w3 with dhLog := w3.dhLog ++ [dh3] }
      let otpStep : Option V × Option String × World :=
        match b.oneTimePrekeys with
        | o :: _ =>
            let d := performDH (.priv en) o.publicKey
            (some d, some o.id, { w4 with dhLog := w4.dhLog ++ [d] })
        | [] => (none, none, w4)
      let dh4 := otpStep.1
      let usedOneTimePrekey := otpStep.2.1
      let w5 := otpStep.2.2
      let rootKey := (deriveInitialKeys dh1 dh2 dh3 dh4).1
      let srn := w5.rng
      let w6 : World := { w5 with rng := srn + 1 }
      let dhOut := performDH (.priv srn) b.signedPrekey.publicKey
      let w7 : World := { w6 with dhLog := w6.dhLog ++ [dhOut] }
      let rk := hkdf (.cat2 rootKey dhOut) "WhispChat-Ratchet" "ChainKey" 64
      let sessionId := slcV b.identityKey 0 16
      let st : SessionState :=
        { sessionId := sessionId
          peerIdentityKey := b.identityKey
          rootKey := slcV rk 0 32
          sendingChainKey := some (slcV rk 32 64)
          sendingChainLength := 0
          receivingChainKey := none
          receivingChainLength := 0
          senderRatchetPrivate := some (.priv srn)
          senderRatchetPublic := some (.pub srn)
          receiverRatchetPublic := b.signedPrekey.publicKey
          previousSendingChainLength := 0
          skippedMessageKeys := fun _ _ => none }
      (saveSess w7 sessionId st,
       .ok { sessionId := sessionId
             initialHeader :=
               { identityKey := aliceIdentityPublic
                 ephemeralKey := .pub en
                 usedOneTimePrekey := usedOneTimePrekey
                 senderRatchetKey := .pub srn } })

/-- `signalProtocol.acceptSession` (Bob, X3DH responder): look up the
current signed-prekey private key (failing with `signedPrekeyNotFound`),
retrieve and immediately delete the referenced one-time prekey, compute
the mirrored DH1..DH4, derive the identical root key, DH against Alice's
sender ratchet key to derive `(newRootKey, receivingChainKey)`, and
persist the session (no sending chain yet) under the first 16 characters
of Alice's base64 identity key. -/
def acceptSession (w : World) (h : InitHeader) : World × Except Err AcceptResult :=
  let bobIdentityPrivate := w.secure .identityPrivate
  let spkId :=
    match w.async .currentSignedPrekeyId with
    | some (.sv s) => s
    | _ => "null"
  match w.secure (.signedPrekey spkId) with
  | none => (w, .error .signedPrekeyNotFound)
  | some spkPriv =>
    let otpStep : Option V × World :=
      match h.usedOneTimePrekey with
      | some x =>
          if x = "" then (none, w)
          else
            match w.secure (.otp x) with
            | some k =>
                if truthy k then
                  (some k, { w with secure := fun key => if key = .otp x then none else w.secure key })
                else (some k, w)
            | none => (none, w)
      | none => (none, w)
    let otpPriv := otpStep.1
    let wA := otpStep.2
    let dh1 := performDH spkPriv h.identityKey
    let wB : World := { wA with dhLog := wA.dhLog ++ [dh1] }
    match bobIdentityPrivate with
    | none => (wB, .error .typeError)
    | some idPriv =>
      let dh2 := performDH idPriv h.ephemeralKey
      let wC : World := { wB with dhLog := wB.dhLog ++ [dh2] }
      let dh3 := performDH spkPriv h.ephemeralKey
      let wD : World := { wC with dhLog := wC.dhLog ++ [dh3] }
      let dh4Step : Option V × World :=
        match otpPriv with
        | some k =>
            if truthy k then
              let d := performDH k h.ephemeralKey
              (some d, { wD with dhLog := wD.dhLog ++ [d] })
            else (none, wD)
        | none => (none, wD)
      let dh4 := dh4Step.1
      let wE := dh4Step.2
      let rootKey := (deriveInitialKeys dh1 dh2 dh3 dh4).1
      let dhOut := performDH spkPriv h.senderRatchetKey
      let wF : World := { wE with dhLog := wE.dhLog ++ [dhOut] }
      let rk := hkdf (.cat2 rootKey dhOut) "WhispChat-Ratchet" "ChainKey" 64
      let sessionId := slcV h.identityKey 0 16
      let st : SessionState :=
        { sessionId := sessionId
          peerIdentityKey := h.identityKey
          rootKey := slcV rk 0 32
          sendingChainKey := none
          sendingChainLength := 0
          receivingChainKey := some (slcV rk 32 64)
          receivingChainLength := 0
          senderRatchetPrivate := none
          senderRatchetPublic := none
          receiverRatchetPublic := h.senderRatchetKey
          previousSendingChainLength := 0
          skippedMessageKeys := fun _ _ => none }
      (saveSess wF sessionId st, .ok { sessionId := sessionId })

/-- `signalProtocol.performDHRatchet`: record `previousSendingChainLength`,
adopt the peer's new ratchet key, generate a fresh local ratchet keypair,
DH it against the new peer key, and derive a new root key and receiving
chain (resetting `receivingChainLength` to 0). -/
def performDHRatchet (w : World) (st : SessionState) (newKey : V) : SessionState × World :=
  let kn := w.rng
  let w1 : World := { w with rng := kn + 1 }
  let dhOut := performDH (.priv kn) newKey
  let w2 : World := { w1 with dhLog := w1.dhLog ++ [dhOut] }
  let rk := hkdf (.cat2 st.rootKey dhOut) "WhispChat-Ratchet" "ChainKey" 64
  ({ st with
     previousSendingChainLength := st.sendingChainLength
     receiverRatchetPublic := newKey
     rootKey := slcV rk 0 32
     receivingChainKey := some (slcV rk 32 64)
     receivingChainLength := 0
     senderRatchetPrivate := some (.priv kn)
     senderRatchetPublic := some (.pub kn) }, w2)

/-- `ratchetDecrypt`, skipped-message bookkeeping: when the envelope's
counter is ahead of `receivingChainLength`, stash
`deriveMessageKey(receivingChainKey, i)` under `<senderRatchetKey>:<i>`
for every intermediate `i`; a null receiving chain key makes the loop
body throw. -/
def stashSkippedKeys (st : SessionState) (hk : V) (c : Nat) : Except Err SessionState :=
  if c > st.receivingChainLength then
    match st.receivingChainKey with
    | none => .error .typeError
    | some rck =>
        .ok { st with
              skippedMessageKeys :=
                (List.range' st.receivingChainLength (c - st.receivingChainLength)).foldl
                  (fun m i => fun k n =>
                    if k = hk ∧ n = i then some (deriveMessageKey rck i) else m k n)
                  st.skippedMessageKeys }
  else .ok st

/-- `ratchetDecrypt`, message-key resolution from the current chain: derive
`deriveMessageKey(receivingChainKey, counter)`, then advance the chain key
once and set `receivingChainLength := counter + 1`. -/
def resolveFromChain (st : SessionState) (c : Nat) : Except Err (V × SessionState) :=
  match st.receivingChainKey with
  | none => .error .typeError
  | some rck =>
      .ok (deriveMessageKey rck c,
           { st with
             receivingChainKey := some (advanceCK rck)
             receivingChainLength := c + 1 })

/-- `ratchetDecrypt`, message-key resolution: use (and delete) the stored
skipped key for `<senderRatchetKey>:<counter>` when one is present,
otherwise derive from the current receiving chain. -/
def resolveKey (st : SessionState) (hk : V) (c : Nat) : Except Err (V × SessionState) :=
  match st.skippedMessageKeys hk c with
  | some mk =>
      if truthy mk then
        .ok (mk,
             { st with
               skippedMessageKeys := fun k n =>
                 if k = hk ∧ n = c then none else st.skippedMessageKeys k n })
      else resolveFromChain st c
  | none => resolveFromChain st c

/-- `ratchetEncrypt`, first-outgoing-message branch: when
`senderRatchetPrivate` is unset, generate a sender ratchet keypair, DH it
against `receiverRatchetPublic` and derive a fresh root key and sending
chain at length 0. -/
def ensureSendingChain (w : World) (st : SessionState) : SessionState × World :=
  if truthyO st.senderRatchetPrivate then (st, w)
  else
    let kn := w.rng
    let w1 : World := { w with rng := kn + 1 }
    let dhOut := performDH (.priv kn) st.receiverRatchetPublic
    let w2 : World := { w1 with dhLog := w1.dhLog ++ [dhOut] }
    let rk := hkdf (.cat2 st.rootKey dhOut) "WhispChat-Ratchet" "ChainKey" 64
    ({ st with
       senderRatchetPrivate := some (.priv kn)
       senderRatchetPublic := some (.pub kn)
       rootKey := slcV rk 0 32
       sendingChainKey := some (slcV rk 32 64)
       sendingChainLength := 0 }, w2)

/-- `signalProtocol.ratchetEncrypt sessionId plaintext`: load the session
(`noSession` if absent), establish the sending chain if needed, derive the
message key at the current counter, advance the sending chain key, draw a
nonce, AEAD-encrypt under associated data `<sessionId>:<counter>`,
increment and persist the counter, and return the envelope. -/
def ratchetEncrypt (w : World) (sid : V) (pt : V) : World × Except Err Envelope :=
  match getSess w sid with
  | none => (w, .error .noSession)
  | some st0 =>
    let p := ensureSendingChain w st0
    match p.1.sendingChainKey with
    | none => (p.2, .error .typeError)
    | some ck =>
      let messageKey := hkdf ck "MessageKey" (decStr p.1.sendingChainLength) 32
      let st2 := { p.1 with sendingChainKey := some (advanceCK ck) }
      let nonce := V.rnd p.2.rng
      let w2 : World := { p.2 with rng := p.2.rng + 1 }
      let ct := encryptAEAD pt messageKey nonce (.adp sid st2.sendingChainLength)
      let st3 := { st2 with sendingChainLength := st2.sendingChainLength + 1 }
      (saveSess w2 sid st3,
       .ok { ciphertext := ct
             header :=
               { senderRatchetKey := st3.senderRatchetPublic.getD .nullv
                 messageCounter := st2.sendingChainLength
                 previousChainLength := st3.previousSendingChainLength }
             nonce := nonce })

/-- `ratchetDecrypt`, the straight-line tail after the DH-ratchet check:
stash skipped message keys, resolve the message key (skipped map or
current chain), AEAD-decrypt under associated data
`<sessionId>:<messageCounter>`, and persist the updated state only on
success — any failure returns the world unchanged. -/
def decryptWithState (w1 : World) (sid : V) (env : Envelope) (st1 : SessionState) :
    World × Except Err V :=
  match stashSkippedKeys st1 env.header.senderRatchetKey env.header.messageCounter with
  | .error e => (w1, .error e)
  | .ok st2 =>
    match resolveKey st2 env.header.senderRatchetKey env.header.messageCounter with
    | .error e => (w1, .error e)
    | .ok mks =>
      match decryptAEAD env.ciphertext mks.1 env.nonce (.adp sid env.header.messageCounter) with
      | .error e => (w1, .error e)
      | .ok pt => (saveSess w1 sid mks.2, .ok pt)

/-- `signalProtocol.ratchetDecrypt sessionId envelope`: load the session
(`noSession` if absent), perform a DH-ratchet step when the envelope
carries a new sender ratchet key, then run the decryption tail. -/
def ratchetDecrypt (w : World) (sid : V) (env : Envelope) : World × Except Err V :=
  match getSess w sid with
  | none => (w, .error .noSession)
  | some st0 =>
    let p :=
      if env.header.senderRatchetKey ≠ st0.receiverRatchetPublic then
        performDHRatchet w st0 env.header.senderRatchetKey
      else (st0, w)
    decryptWithState p.2 sid env p.1

/-- `mediaEncryption.decryptFile`: ratchet-decrypt the file-key envelope,
then AEAD-decrypt the blob with the recovered key (no associated data);
a failure at either stage propagates as that stage's error. -/
def decryptFile (w : World) (blob : V) (envKey : Envelope) (fileNonce : V) (sid : V) :
    World × Except Err V :=
  match ratchetDecrypt w sid envKey with
  | (w', .error e) => (w', .error e)
  | (w', .ok fileKeyB64) =>
    match decryptAEAD blob fileKeyB64 fileNonce .nullv with
    | .error e => (w', .error e)
    | .ok bytes => (w', .ok bytes)

/-- Unwrap a successful `initiateSession` result (inert default otherwise). -/
def okOrI : Except Err InitResult → InitResult
  | .ok r => r
  | .error _ => ⟨.nullv, ⟨.nullv, .nullv, none, .nullv⟩⟩

/-- Unwrap a successful `acceptSession` result (inert default otherwise). -/
def okOrA : Except Err AcceptResult → AcceptResult
  | .ok r => r
  | .error _ => ⟨.nullv⟩

/-- Unwrap a successful `ratchetEncrypt` result (inert default otherwise). -/
def okOrE : Except Err Envelope → Envelope
  | .ok r => r
  | .error _ => ⟨.nullv, ⟨.nullv, 0, 0⟩, .nullv⟩

deriving instance DecidableEq for Except

/-! ### A concrete Alice/Bob run

Bob generates a prekey bundle (one one-time prekey), Alice generates her
identity material, initiates a session from Bob's bundle, Bob accepts the
resulting header, and Alice encrypts three messages.  The two devices use
disjoint RNG ranges. -/

/-- A fresh device store with RNG counter `r` and clock `n`. -/
def emptyW (r n : Nat) : World := ⟨fun _ => none, fun _ => none, r, n, []⟩

/-- Bob's device after `generatePrekeyBundle(1)`. -/
def bobSetup : World × Bundle := generatePrekeyBundle (emptyW 100 7) 1

/-- Alice's device after `generatePrekeyBundle(0)` (creates her identity keypair). -/
def aliceSetup : World × Bundle := generatePrekeyBundle (emptyW 0 9) 0

/-- Alice initiates a session from Bob's bundle. -/
def aliceInit : World × Except Err InitResult := initiateSession aliceSetup.1 bobSetup.2

/-- The handshake result on Alice's side. -/
def initRes : InitResult := okOrI aliceInit.2

/-- Bob accepts Alice's handshake header. -/
def bobAcc : World × Except Err AcceptResult := acceptSession bobSetup.1 initRes.initialHeader

/-- Alice's session id (first 16 characters of Bob's encoded identity key). -/
def aSid : V := initRes.sessionId

/-- Bob's session id (first 16 characters of Alice's encoded identity key). -/
def bSid : V := (okOrA bobAcc.2).sessionId

/-- Alice encrypts message 0 (`"hello"`). -/
def enc0 : World × Except Err Envelope := ratchetEncrypt aliceInit.1 aSid (.lit "hello")

/-- Alice encrypts message 1 (`"world"`). -/
def enc1 : World × Except Err Envelope := ratchetEncrypt enc0.1 aSid (.lit "world")

/-- Alice encrypts message 2 (`"third"`). -/
def enc2 : World × Except Err Envelope := ratchetEncrypt enc1.1 aSid (.lit "third")

/-- Bob decrypts Alice's first envelope. -/
def dec0 : World × Except Err V := ratchetDecrypt bobAcc.1 bSid (okOrE enc0.2)

/-- Bob decrypts the counter-2 envelope first (out-of-order delivery). -/
def dec2first : World × Except Err V := ratchetDecrypt bobAcc.1 bSid (okOrE enc2.2)

/-- Bob then decrypts the counter-1 envelope. -/
def dec1after : World × Except Err V := ratchetDecrypt dec2first.1 bSid (okOrE enc1.2)

/-- C1: the round-trip property fails on the code: for the session pair
established by `initiateSession`/`acceptSession`, Bob's `ratchetDecrypt`
of the very first envelope produced by Alice's `ratchetEncrypt` raises
`AuthenticationFailure` instead of returning the plaintext — the AEAD
associated data binds each caller's own sessionId (`<sid>:<counter>`) and
Alice's sessionId (prefix of Bob's identity key) differs from Bob's
(prefix of Alice's identity key); the two sides' receiving/sending chain
keys are nevertheless identical, so the mismatch is the associated data. -/
theorem c1_roundtrip_fails_on_first_envelope :
    aliceInit.2.isOk = true ∧ bobAcc.2.isOk = true ∧ enc0.2.isOk = true ∧
    ((getSess aliceInit.1 aSid).bind (fun s => s.sendingChainKey) =
      (getSess bobAcc.1 bSid).bind (fun s => s.receivingChainKey)) ∧
    aSid ≠ bSid ∧
    dec0.2 = .error .authenticationFailure := by
  decide

/-- C3: the out-of-order property fails on the code: on the established
session pair, decrypting the counter-2 envelope first and the counter-1
envelope second both raise `AuthenticationFailure` (same associated-data
mismatch), instead of both succeeding with their original plaintexts. -/
theorem c3_out_of_order_decrypts_fail :
    enc1.2.isOk = true ∧ enc2.2.isOk = true ∧
    dec2first.2 = .error .authenticationFailure ∧
    dec1after.2 = .error .authenticationFailure := by
  decide

/-! ### Helper lemmas -/

/-- Looking up the session just saved returns it. -/
theorem getSess_save (w : World) (sid : V) (st : SessionState) :
    getSess (saveSess w sid st) sid = some st := by
  simp [getSess, saveSess]

/-- A DH-ratchet step touches only the RNG and the DH log, not the stores. -/
theorem performDHRatchet_frame (w : World) (st : SessionState) (nk : V) :
    (performDHRatchet w st nk).2.async = w.async ∧
      (performDHRatchet w st nk).2.secure = w.secure :=
  ⟨rfl, rfl⟩

/-- The decryption tail returns the input world unchanged on every failure. -/
theorem decryptWithState_err_frame (w1 : World) (sid : V) (env : Envelope)
    (st1 : SessionState) (h : (decryptWithState w1 sid env st1).2.isOk = false) :
    (decryptWithState w1 sid env st1).1 = w1 := by
  unfold decryptWithState at h ⊢
  cases hst : stashSkippedKeys st1 env.header.senderRatchetKey env.header.messageCounter with
  | error e => simp only [hst]
  | ok st2 =>
    simp only [hst] at h ⊢
    cases hrk : resolveKey st2 env.header.senderRatchetKey env.header.messageCounter with
    | error e => simp only [hrk]
    | ok mks =>
      simp only [hrk] at h ⊢
      cases hd : decryptAEAD env.ciphertext mks.1 env.nonce (.adp sid env.header.messageCounter) with
      | error e => simp only [hd]
      | ok pt => rw [hd] at h; exact Bool.noConfusion h

/-- Any failing `ratchetDecrypt` leaves both device stores unchanged. -/
theorem ratchetDecrypt_err_frame (w : World) (sid : V) (env : Envelope)
    (h : (ratchetDecrypt w sid env).2.isOk = false) :
    (ratchetDecrypt w sid env).1.async = w.async ∧
      (ratchetDecrypt w sid env).1.secure = w.secure := by
  unfold ratchetDecrypt at h ⊢
  cases hg : getSess w sid with
  | none => simp [hg]
  | some st0 =>
    simp only [hg] at h ⊢
    by_cases hb : env.header.senderRatchetKey ≠ st0.receiverRatchetPublic
    · simp only [if_pos hb] at h ⊢
      have hw := decryptWithState_err_frame
        (performDHRatchet w st0 env.header.senderRatchetKey).2 sid env
        (performDHRatchet w st0 env.header.senderRatchetKey).1 h
      rw [hw]
      exact performDHRatchet_frame w st0 env.header.senderRatchetKey
    · simp only [if_neg hb] at h ⊢
      have hw := decryptWithState_err_frame w sid env st0 h
      rw [hw]
      exact ⟨rfl, rfl⟩

/-- C4: an envelope failing AEAD tag verification makes `ratchetDecrypt`
raise `AuthenticationFailure` with both persistent stores (and hence the
persisted session state: rootKey, chain keys, chain lengths,
receiverRatchetPublic, skippedMessageKeys) exactly as before the call. -/
theorem c4_auth_failure_persists_no_mutation (w : World) (sid : V) (env : Envelope)
    (h : (ratchetDecrypt w sid env).2 = .error .authenticationFailure) :
    (ratchetDecrypt w sid env).1.async = w.async ∧
      (ratchetDecrypt w sid env).1.secure = w.secure := by
  refine ratchetDecrypt_err_frame w sid env ?_
  rw [h]
  rfl

/-- C4 witness: on the concrete run, Bob's failing decrypt of Alice's first
envelope leaves both of his stores untouched. -/
theorem c4_witness :
    (ratchetDecrypt bobAcc.1 bSid (okOrE enc0.2)).1.async = bobAcc.1.async ∧
      (ratchetDecrypt bobAcc.1 bSid (okOrE enc0.2)).1.secure = bobAcc.1.secure :=
  c4_auth_failure_persists_no_mutation bobAcc.1 bSid (okOrE enc0.2) (by decide)

/-- C5: a bundle whose signed-prekey signature does not verify against its
identity key makes `initiateSession` fail with `InvalidBundleSignature`,
with no Diffie-Hellman operation performed (the DH log — and indeed the
whole world — is unchanged). -/
theorem c5_invalid_bundle_rejected_before_dh (w : World) (b : Bundle)
    (h : e2eeVerify b.signedPrekey.publicKey b.signedPrekey.signature b.identityKey = false) :
    (initiateSession w b).2 = .error .invalidBundleSignature ∧
      (initiateSession w b).1.dhLog = w.dhLog ∧
      (initiateSession w b).1 = w := by
  have hw : initiateSession w b = (w, .error .invalidBundleSignature) := by
    unfold initiateSession
    rw [if_pos h]
  rw [hw]
  exact ⟨rfl, rfl, rfl⟩

/-- C5 witness: a concrete bundle signed under the wrong identity is
rejected before any DH. -/
theorem c5_witness :
    (initiateSession (emptyW 0 0) ⟨.pub 1, ⟨"s", .pub 2, .sig (.pub 2) (.priv 3)⟩, []⟩).2 =
        .error .invalidBundleSignature ∧
      (initiateSession (emptyW 0 0) ⟨.pub 1, ⟨"s", .pub 2, .sig (.pub 2) (.priv 3)⟩, []⟩).1.dhLog =
        (emptyW 0 0).dhLog ∧
      (initiateSession (emptyW 0 0) ⟨.pub 1, ⟨"s", .pub 2, .sig (.pub 2) (.priv 3)⟩, []⟩).1 =
        emptyW 0 0 :=
  c5_invalid_bundle_rejected_before_dh (emptyW 0 0) _ (by decide)

/-- C6: when `acceptSession` is reached with a current signed prekey in
store and the header references one-time prekey id `x` whose private key
is present (and non-empty), that private key is deleted during the call:
afterwards the secure store no longer contains `otp_x`, so no later
`acceptSession` can retrieve it. -/
theorem c6_one_time_prekey_deleted (w : World) (hh : InitHeader) (x spkId : String) (k pk : V)
    (hx : hh.usedOneTimePrekey = some x) (hxe : x ≠ "")
    (hcur : w.async .currentSignedPrekeyId = some (.sv spkId))
    (hspk : w.secure (.signedPrekey spkId) = some pk)
    (hk : w.secure (.otp x) = some k) (htr : truthy k = true) :
    (acceptSession w hh).1.secure (.otp x) = none := by
  unfold acceptSession
  rw [hcur]
  simp only [hspk, hx, if_neg hxe, hk, if_pos htr]
  cases hid : w.secure .identityPrivate with
  | none => simp
  | some idPriv => simp [saveSess, htr]

/-- C6 witness: a concrete accept run deletes the referenced one-time
prekey from the secure store. -/
theorem c6_witness :
    (acceptSession
        ⟨fun key =>
            if key = .identityPrivate then some (.priv 1)
            else if key = .signedPrekey "7" then some (.priv 2)
            else if key = .otp "x1" then some (.priv 3)
            else none,
          fun key => if key = .currentSignedPrekeyId then some (.sv "7") else none,
          30, 0, []⟩
        ⟨.pub 5, .pub 6, some "x1", .pub 8⟩).1.secure (.otp "x1") = none :=
  c6_one_time_prekey_deleted _ _ "x1" "7" (.priv 3) (.priv 2)
    (by rfl) (by decide) (by rfl) (by rfl) (by rfl) (by rfl)

/-- C8 (amended): a failure in either stage of `decryptFile` — the ratchet
decryption of the file-key envelope or the AEAD decryption of the blob —
propagates that stage's error unchanged, and no decrypted bytes are
returned. -/
theorem c8_failures_propagate :
    (∀ (w : World) (blob : V) (envK : Envelope) (nonce sid : V) (e : Err),
        (ratchetDecrypt w sid envK).2 = .error e →
        (decryptFile w blob envK nonce sid).2 = .error e) ∧
    (∀ (w : World) (blob : V) (envK : Envelope) (nonce sid fk : V) (e : Err),
        (ratchetDecrypt w sid envK).2 = .ok fk →
        decryptAEAD blob fk nonce .nullv = .error e →
        (decryptFile w blob envK nonce sid).2 = .error e) := by
  constructor
  · intro w blob envK nonce sid e h
    unfold decryptFile
    rcases hr : ratchetDecrypt w sid envK with ⟨w', r⟩
    rw [hr] at h
    simp only at h
    subst h
    rfl
  · intro w blob envK nonce sid fk e h1 h2
    unfold decryptFile
    rcases hr : ratchetDecrypt w sid envK with ⟨w', r⟩
    rw [hr] at h1
    simp only at h1
    subst h1
    simp only [h2]

/-- C8 counterexample: on a concrete failing input the error surfaced by
`decryptFile` is the ratchet stage's `AuthenticationFailure` itself, not a
distinct media-layer `DecryptionFailed` error — the code wraps nothing. -/
theorem c8_error_is_not_decryptionFailed :
    (decryptFile bobAcc.1 (.lit "blob") (okOrE enc0.2) (.rnd 999) bSid).2 =
        .error .authenticationFailure ∧
      Err.authenticationFailure ≠ Err.decryptionFailed := by
  decide

/-- C8 witness: a missing session makes the file-key stage fail with
`NoSession`, and `decryptFile` surfaces exactly that error. -/
theorem c8_witness :
    (decryptFile (emptyW 0 0) (.lit "b") ⟨.nullv, ⟨.nullv, 0, 0⟩, .nullv⟩ (.rnd 1)
        (.lit "S")).2 = .error .noSession :=
  c8_failures_propagate.1 (emptyW 0 0) (.lit "b") ⟨.nullv, ⟨.nullv, 0, 0⟩, .nullv⟩ (.rnd 1)
    (.lit "S") .noSession (by decide)

/-! ### C9: sessions are keyed by a 16-character identity-key prefix -/

/-- A device that already owns identity keypair 41, for the collision run. -/
def colW : World :=
  ⟨fun k => if k = .identityPrivate then some (.priv 41) else none,
   fun k => if k = .identityPublic then some (.vv (.pub 41)) else none,
   40, 0, []⟩

/-- First peer: identity key whose encoding is 17 characters long. -/
def colBundle1 : Bundle :=
  ⟨.pub 10000000000000001, ⟨"s1", .pub 21, .sig (.pub 21) (.priv 10000000000000001)⟩, []⟩

/-- Second peer: a different identity key sharing the first 16 characters. -/
def colBundle2 : Bundle :=
  ⟨.pub 10000000000000002, ⟨"s2", .pub 22, .sig (.pub 22) (.priv 10000000000000002)⟩, []⟩

/-- World after initiating a session with the first peer. -/
def colW1 : World := (initiateSession colW colBundle1).1

/-- World after initiating a session with the second peer as well. -/
def colW2 : World := (initiateSession colW1 colBundle2).1

/-- C9: both `initiateSession` and `acceptSession` persist the session
under the first 16 characters of the peer's encoded identity key (and
return that as the sessionId); consequently two distinct peers whose
encoded identity keys share a 16-character prefix end up in the same
session entry (the second overwrites the first), and looking a session up
by any other identifier (for example a user id) returns null. -/
theorem c9_sessions_keyed_by_identity_prefix :
    (∀ (w : World) (b : Bundle) (r : InitResult),
        (initiateSession w b).2 = .ok r →
        r.sessionId = slcV b.identityKey 0 16 ∧
          (getSess (initiateSession w b).1 (slcV b.identityKey 0 16)).isSome = true) ∧
    (∀ (w : World) (hh : InitHeader) (r : AcceptResult),
        (acceptSession w hh).2 = .ok r →
        r.sessionId = slcV hh.identityKey 0 16 ∧
          (getSess (acceptSession w hh).1 (slcV hh.identityKey 0 16)).isSome = true) ∧
    ((initiateSession colW colBundle1).2.isOk = true ∧
      (initiateSession colW1 colBundle2).2.isOk = true ∧
      colBundle1.identityKey ≠ colBundle2.identityKey ∧
      slcV colBundle1.identityKey 0 16 = slcV colBundle2.identityKey 0 16 ∧
      (getSess colW2 (slcV colBundle1.identityKey 0 16)).map (fun s => s.peerIdentityKey) =
        some colBundle2.identityKey ∧
      (getSess colW2 (.lit "68ab3f2c9d1e4f5a")).isSome = false) := by
  refine ⟨?_, ?_, ?_⟩
  · intro w b r h
    unfold initiateSession at h ⊢
    by_cases hv : e2eeVerify b.signedPrekey.publicKey b.signedPrekey.signature b.identityKey = false
    · rw [if_pos hv] at h
      exact absurd h (by simp)
    · rw [if_neg hv] at h ⊢
      cases hid : w.secure .identityPrivate with
      | none => simp [hid] at h
      | some idPriv =>
        simp only [hid] at h ⊢
        injection h with h2
        refine ⟨by rw [← h2], ?_⟩
        rw [getSess_save]
        rfl
  · intro w hh r h
    unfold acceptSession at h ⊢
    cases hspk : w.secure (.signedPrekey
        (match w.async .currentSignedPrekeyId with
         | some (.sv s) => s
         | _ => "null")) with
    | none =>
      simp only [hspk] at h
      exact absurd h (by simp)
    | some spkPriv =>
      simp only [hspk] at h ⊢
      cases hid : w.secure .identityPrivate with
      | none => simp [hid] at h
      | some idPriv =>
        simp only [hid] at h ⊢
        injection h with h2
        refine ⟨by rw [← h2], ?_⟩
        rw [getSess_save]
        rfl
  · decide

/-- Stashing skipped keys changes only `skippedMessageKeys`. -/
theorem stash_ok_frame (st : SessionState) (hk : V) (c : Nat) (st2 : SessionState)
    (h : stashSkippedKeys st hk c = .ok st2) :
    st2.rootKey = st.rootKey ∧ st2.receivingChainKey = st.receivingChainKey ∧
      st2.receivingChainLength = st.receivingChainLength := by
  unfold stashSkippedKeys at h
  split at h
  · cases hrk : st.receivingChainKey with
    | none => rw [hrk] at h; exact Except.noConfusion h
    | some rck =>
      rw [hrk] at h
      injection h with h2
      rw [← h2]
      exact ⟨rfl, rfl, rfl⟩
  · injection h with h2
    rw [← h2]
    exact ⟨rfl, rfl, rfl⟩

/-- Message-key resolution never changes the root key. -/
theorem resolve_ok_rootKey (st : SessionState) (hk : V) (c : Nat) (mks : V × SessionState)
    (h : resolveKey st hk c = .ok mks) : mks.2.rootKey = st.rootKey := by
  unfold resolveKey resolveFromChain at h
  split at h
  · split at h
    · injection h with h2
      rw [← h2]
    · split at h
      · exact Except.noConfusion h
      · injection h with h2
        rw [← h2]
  · split at h
    · exact Except.noConfusion h
    · injection h with h2
      rw [← h2]

/-- C7: the persisted `rootKey` changes only on a DH-ratchet step —
`ratchetEncrypt` leaves it unchanged whenever `senderRatchetPrivate` is
already set (the first-outgoing-message branch is not taken), and
`ratchetDecrypt` leaves it unchanged whenever the envelope carries the
already-known sender ratchet key (no DH ratchet). -/
theorem c7_rootKey_changes_only_on_dh_ratchet :
    (∀ (w : World) (sid pt : V) (st st' : SessionState),
        getSess w sid = some st → truthyO st.senderRatchetPrivate = true →
        getSess (ratchetEncrypt w sid pt).1 sid = some st' → st'.rootKey = st.rootKey) ∧
    (∀ (w : World) (sid : V) (env : Envelope) (st st' : SessionState),
        getSess w sid = some st → env.header.senderRatchetKey = st.receiverRatchetPublic →
        getSess (ratchetDecrypt w sid env).1 sid = some st' → st'.rootKey = st.rootKey) := by
  constructor
  · intro w sid pt st st' hg ht hg'
    unfold ratchetEncrypt at hg'
    simp only [hg] at hg'
    have he : ensureSendingChain w st = (st, w) := by
      unfold ensureSendingChain
      rw [if_pos ht]
    rw [he] at hg'
    cases hck : st.sendingChainKey with
    | none =>
      simp only [hck] at hg'
      rw [hg] at hg'
      injection hg' with h2
      rw [← h2]
    | some ck =>
      simp only [hck] at hg'
      rw [getSess_save] at hg'
      injection hg' with h2
      rw [← h2]
  · intro w sid env st st' hg hr hg'
    unfold ratchetDecrypt at hg'
    simp only [hg] at hg'
    rw [if_neg (show ¬(env.header.senderRatchetKey ≠ st.receiverRatchetPublic) from
      fun hcon => hcon hr)] at hg'
    unfold decryptWithState at hg'
    cases hst : stashSkippedKeys st env.header.senderRatchetKey env.header.messageCounter with
    | error e =>
      simp only [hst] at hg'
      rw [hg] at hg'
      injection hg' with h2
      rw [← h2]
    | ok st2 =>
      simp only [hst] at hg'
      obtain ⟨hrk2, _, _⟩ := stash_ok_frame st env.header.senderRatchetKey
        env.header.messageCounter st2 hst
      cases hres : resolveKey st2 env.header.senderRatchetKey env.header.messageCounter with
      | error e =>
        simp only [hres] at hg'
        rw [hg] at hg'
        injection hg' with h2
        rw [← h2]
      | ok mks =>
        simp only [hres] at hg'
        have hmk := resolve_ok_rootKey st2 env.header.senderRatchetKey
          env.header.messageCounter mks hres
        cases hd : decryptAEAD env.ciphertext mks.1 env.nonce
            (.adp sid env.header.messageCounter) with
        | error e =>
          simp only [hd] at hg'
          rw [hg] at hg'
          injection hg' with h2
          rw [← h2]
        | ok ptv =>
          simp only [hd] at hg'
          rw [getSess_save] at hg'
          injection hg' with h2
          rw [← h2, hmk, hrk2]

/-- A session whose sending chain is already established, for the C7 witness. -/
def c7St : SessionState :=
  ⟨.lit "S", .pub 9, .lit "RK", some (.lit "CK"), 0, some (.lit "RCK"), 0,
   some (.priv 7), some (.pub 7), .pub 300, 0, fun _ _ => none⟩

/-- A device holding `c7St` under session id `"S"`. -/
def c7W : World :=
  ⟨fun _ => none, fun k => if k = .session (.lit "S") then some (.sess c7St) else none, 0, 0, []⟩

/-- An envelope carrying the already-known ratchet key, for the C7 witness. -/
def c7Env : Envelope :=
  ⟨.aeadE (.lit "m") (.lit "K") (.rnd 1) (.adp (.lit "S") 0), ⟨.pub 300, 0, 0⟩, .rnd 1⟩

/-- C7 witness: on concrete non-ratchet calls, the persisted root key is
unchanged after an encrypt and after a decrypt. -/
theorem c7_witness :
    ((getSess (ratchetEncrypt c7W (.lit "S") (.lit "pt")).1 (.lit "S")).getD c7St).rootKey =
        c7St.rootKey ∧
      ((getSess (ratchetDecrypt c7W (.lit "S") c7Env).1 (.lit "S")).getD c7St).rootKey =
        c7St.rootKey :=
  ⟨c7_rootKey_changes_only_on_dh_ratchet.1 c7W (.lit "S") (.lit "pt") c7St
      ((getSess (ratchetEncrypt c7W (.lit "S") (.lit "pt")).1 (.lit "S")).getD c7St)
      (by rfl) (by rfl) (by rfl),
    c7_rootKey_changes_only_on_dh_ratchet.2 c7W (.lit "S") c7Env c7St
      ((getSess (ratchetDecrypt c7W (.lit "S") c7Env).1 (.lit "S")).getD c7St)
      (by rfl) (by rfl) (by rfl)⟩

/-- C10 (amended): when `ratchetDecrypt` succeeds by resolving the message
key from `skippedMessageKeys` — an entry exists for
`<senderRatchetKey>:<messageCounter>` — and the envelope's sender ratchet
key matches the stored `receiverRatchetPublic` with
`messageCounter ≤ receivingChainLength` (so neither a DH-ratchet step nor
skip-stashing precedes the lookup), the persisted state has exactly that
one entry deleted, every other entry preserved, `receivingChainKey` and
`receivingChainLength` unchanged, and the plaintext was decrypted with the
stored key. -/
theorem c10_skipped_key_use_frame (w : World) (sid : V) (env : Envelope)
    (st : SessionState) (mk pt : V)
    (hg : getSess w sid = some st)
    (hr : env.header.senderRatchetKey = st.receiverRatchetPublic)
    (hcnt : env.header.messageCounter ≤ st.receivingChainLength)
    (hk : st.skippedMessageKeys env.header.senderRatchetKey env.header.messageCounter = some mk)
    (htr : truthy mk = true)
    (hok : (ratchetDecrypt w sid env).2 = .ok pt) :
    ∃ st', getSess (ratchetDecrypt w sid env).1 sid = some st' ∧
      st'.skippedMessageKeys env.header.senderRatchetKey env.header.messageCounter = none ∧
      (∀ (k : V) (n : Nat),
        ¬(k = env.header.senderRatchetKey ∧ n = env.header.messageCounter) →
        st'.skippedMessageKeys k n = st.skippedMessageKeys k n) ∧
      st'.receivingChainKey = st.receivingChainKey ∧
      st'.receivingChainLength = st.receivingChainLength ∧
      decryptAEAD env.ciphertext mk env.nonce (.adp sid env.header.messageCounter) = .ok pt := by
  have hst : stashSkippedKeys st env.header.senderRatchetKey env.header.messageCounter =
      .ok st := by
    unfold stashSkippedKeys
    rw [if_neg (Nat.not_lt.mpr hcnt)]
  have hres : resolveKey st env.header.senderRatchetKey env.header.messageCounter =
      .ok (mk,
        { st with
          skippedMessageKeys := fun k n =>
            if k = env.header.senderRatchetKey ∧ n = env.header.messageCounter then none
            else st.skippedMessageKeys k n }) := by
    unfold resolveKey
    rw [hk]
    simp only [htr, if_pos]
  unfold ratchetDecrypt at hok ⊢
  simp only [hg] at hok ⊢
  rw [if_neg (show ¬(env.header.senderRatchetKey ≠ st.receiverRatchetPublic) from
    fun hcon => hcon hr)] at hok ⊢
  unfold decryptWithState at hok ⊢
  simp only [hst, hres] at hok ⊢
  cases hd : decryptAEAD env.ciphertext mk env.nonce (.adp sid env.header.messageCounter) with
  | error e =>
    rw [hd] at hok
    exact Except.noConfusion hok
  | ok q =>
    rw [hd] at hok
    injection hok with hq
    refine ⟨_, getSess_save _ _ _, ?_, ?_, rfl, rfl, ?_⟩
    · simp
    · intro k n hne
      simp only [if_neg hne]
    · rw [hq]

/-- A session holding a stale skipped key under a rotated-away ratchet key,
for the C10 counterexample. -/
def c10xSt : SessionState :=
  ⟨.lit "S", .pub 9, .lit "RT", none, 0, some (.lit "RCK"), 5, none, none, .pub 300, 0,
   fun k n => if k = .pub 200 ∧ n = 0 then some (.lit "K0") else none⟩

/-- A device holding `c10xSt` under session id `"S"`. -/
def c10xW : World :=
  ⟨fun _ => none, fun k => if k = .session (.lit "S") then some (.sess c10xSt) else none,
   70, 0, []⟩

/-- An envelope under the old ratchet key whose AEAD matches the stashed key. -/
def c10xEnv : Envelope :=
  ⟨.aeadE (.lit "sec") (.lit "K0") (.rnd 8) (.adp (.lit "S") 0), ⟨.pub 200, 0, 0⟩, .rnd 8⟩

/-- The decrypt call of the C10 counterexample. -/
def c10xRun : World × Except Err V := ratchetDecrypt c10xW (.lit "S") c10xEnv

/-- C10 counterexample: a skipped-map entry exists for
`<senderRatchetKey>:<messageCounter>` and the call succeeds by decrypting
with it, yet the persisted `receivingChainLength` (and chain key) changed:
the envelope's key differs from `receiverRatchetPublic`, so a DH-ratchet
step ran in the same call — the claim as stated is false. -/
theorem c10_counterexample :
    c10xSt.skippedMessageKeys c10xEnv.header.senderRatchetKey
        c10xEnv.header.messageCounter = some (.lit "K0") ∧
      c10xRun.2 = .ok (.lit "sec") ∧
      (getSess c10xRun.1 (.lit "S")).map (fun s => s.receivingChainLength) = some 0 ∧
      c10xSt.receivingChainLength = 5 := by
  decide

/-- A session with a skipped key under the current ratchet key, for the C10
witness. -/
def c10wSt : SessionState :=
  ⟨.lit "S", .pub 9, .lit "RT", none, 0, some (.lit "RCK"), 3, none, none, .pub 300, 0,
   fun k n => if k = .pub 300 ∧ n = 1 then some (.lit "MK1") else none⟩

/-- A device holding `c10wSt` under session id `"S"`. -/
def c10wW : World :=
  ⟨fun _ => none, fun k => if k = .session (.lit "S") then some (.sess c10wSt) else none,
   80, 0, []⟩

/-- A late-arriving counter-1 envelope matching the stashed key. -/
def c10wEnv : Envelope :=
  ⟨.aeadE (.lit "late") (.lit "MK1") (.rnd 4) (.adp (.lit "S") 1), ⟨.pub 300, 1, 0⟩, .rnd 4⟩

/-- C10 witness: the amended frame property at a concrete skipped-key
delivery. -/
theorem c10_witness :
    ∃ st', getSess (ratchetDecrypt c10wW (.lit "S") c10wEnv).1 (.lit "S") = some st' ∧
      st'.skippedMessageKeys c10wEnv.header.senderRatchetKey
          c10wEnv.header.messageCounter = none ∧
      (∀ (k : V) (n : Nat),
        ¬(k = c10wEnv.header.senderRatchetKey ∧ n = c10wEnv.header.messageCounter) →
        st'.skippedMessageKeys k n = c10wSt.skippedMessageKeys k n) ∧
      st'.receivingChainKey = c10wSt.receivingChainKey ∧
      st'.receivingChainLength = c10wSt.receivingChainLength ∧
      decryptAEAD c10wEnv.ciphertext (.lit "MK1") c10wEnv.nonce
          (.adp (.lit "S") c10wEnv.header.messageCounter) = .ok (.lit "late") :=
  c10_skipped_key_use_frame c10wW (.lit "S") c10wEnv c10wSt (.lit "MK1") (.lit "late")
    (by rfl) (by rfl) (by decide) (by rfl) (by decide) (by decide)

/-- Alice's device: identity keypair `a` in store, RNG counter `ra`. -/
def aliceWorld (a ra : Nat) : World :=
  ⟨fun k => if k = .identityPrivate then some (.priv a) else none,
   fun k => if k = .identityPublic then some (.vv (.pub a)) else none,
   ra, 0, []⟩

/-- Bob's device: identity keypair `b`, current signed prekey `s` (id
`sid`), one-time prekey `o` (id `oid`), RNG counter `rb`. -/
def bobWorld (b s o : Nat) (sid oid : String) (rb : Nat) : World :=
  ⟨fun k =>
     if k = .identityPrivate then some (.priv b)
     else if k = .signedPrekey sid then some (.priv s)
     else if k = .otp oid then some (.priv o)
     else none,
   fun k =>
     if k = .identityPublic then some (.vv (.pub b))
     else if k = .currentSignedPrekeyId then some (.sv sid)
     else none,
   rb, 0, []⟩

/-- An honestly generated bundle of Bob's: his identity key, his signed
prekey correctly signed under his identity key, and his one-time prekeys. -/
def c2Bundle (b s o : Nat) (sid oid : String) (rest : List OTP) : Bundle :=
  ⟨.pub b, ⟨sid, .pub s, .sig (.pub s) (.priv b)⟩, ⟨oid, .pub o⟩ :: rest⟩

/-- Alice initiating a session from Bob's honest bundle. -/
def c2AliceRun (a b s o ra : Nat) (sid oid : String) (rest : List OTP) :
    World × Except Err InitResult :=
  initiateSession (aliceWorld a ra) (c2Bundle b s o sid oid rest)

/-- Bob accepting the header Alice's run emitted. -/
def c2BobRun (a b s o ra rb : Nat) (sid oid : String) (rest : List OTP) :
    World × Except Err AcceptResult :=
  acceptSession (bobWorld b s o sid oid rb)
    (okOrI (c2AliceRun a b s o ra sid oid rest).2).initialHeader

/-- C2: for every honestly generated bundle of Bob's and the header emitted
by Alice's `initiateSession`, Bob's `acceptSession` succeeds, computes
exactly the same DH outputs in the same order (the mirrored operands give
numerically identical results), derives a rootKey equal to Alice's, and
derives a receivingChainKey equal to Alice's sendingChainKey. -/
theorem c2_x3dh_agreement (a b s o ra rb : Nat) (sid oid : String) (rest : List OTP)
    (hoid : oid ≠ "") :
    (c2AliceRun a b s o ra sid oid rest).2.isOk = true ∧
    (c2BobRun a b s o ra rb sid oid rest).2.isOk = true ∧
    (c2AliceRun a b s o ra sid oid rest).1.dhLog =
      (c2BobRun a b s o ra rb sid oid rest).1.dhLog ∧
    ((getSess (c2AliceRun a b s o ra sid oid rest).1
        (okOrI (c2AliceRun a b s o ra sid oid rest).2).sessionId).map (fun st => st.rootKey) =
      (getSess (c2BobRun a b s o ra rb sid oid rest).1
        (okOrA (c2BobRun a b s o ra rb sid oid rest).2).sessionId).map (fun st => st.rootKey)) ∧
    ((getSess (c2AliceRun a b s o ra sid oid rest).1
        (okOrI (c2AliceRun a b s o ra sid oid rest).2).sessionId).bind
          (fun st => st.sendingChainKey) =
      (getSess (c2BobRun a b s o ra rb sid oid rest).1
        (okOrA (c2BobRun a b s o ra rb sid oid rest).2).sessionId).bind
          (fun st => st.receivingChainKey)) ∧
    (getSess (c2AliceRun a b s o ra sid oid rest).1
        (okOrI (c2AliceRun a b s o ra sid oid rest).2).sessionId).isSome = true := by
  simp [c2AliceRun, c2BobRun, c2Bundle, aliceWorld, bobWorld, initiateSession, acceptSession,
    e2eeVerify, performDH, deriveInitialKeys, hkdf, slcV, getSess, saveSess, okOrI, okOrA,
    truthy, hoid, Nat.min_comm, Nat.max_comm]
  exact ⟨rfl, rfl⟩

/-- C2 witness: the agreement at a concrete instance. -/
theorem c2_witness :
    (c2AliceRun 1 2 3 4 10 "7" "7_0" []).2.isOk = true ∧
    (c2BobRun 1 2 3 4 10 20 "7" "7_0" []).2.isOk = true ∧
    (c2AliceRun 1 2 3 4 10 "7" "7_0" []).1.dhLog =
      (c2BobRun 1 2 3 4 10 20 "7" "7_0" []).1.dhLog ∧
    ((getSess (c2AliceRun 1 2 3 4 10 "7" "7_0" []).1
        (okOrI (c2AliceRun 1 2 3 4 10 "7" "7_0" []).2).sessionId).map (fun st => st.rootKey) =
      (getSess (c2BobRun 1 2 3 4 10 20 "7" "7_0" []).1
        (okOrA (c2BobRun 1 2 3 4 10 20 "7" "7_0" []).2).sessionId).map (fun st => st.rootKey)) ∧
    ((getSess (c2AliceRun 1 2 3 4 10 "7" "7_0" []).1
        (okOrI (c2AliceRun 1 2 3 4 10 "7" "7_0" []).2).sessionId).bind
          (fun st => st.sendingChainKey) =
      (getSess (c2BobRun 1 2 3 4 10 20 "7" "7_0" []).1
        (okOrA (c2BobRun 1 2 3 4 10 20 "7" "7_0" []).2).sessionId).bind
          (fun st => st.receivingChainKey)) ∧
    (getSess (c2AliceRun 1 2 3 4 10 "7" "7_0" []).1
        (okOrI (c2AliceRun 1 2 3 4 10 "7" "7_0" []).2).sessionId).isSome = true :=
  c2_x3dh_agreement 1 2 3 4 10 20 "7" "7_0" [] (by decide)

/-- C9 witness: the keying property at a concrete initiate run. -/
theorem c9_witness :
    (okOrI (initiateSession (aliceWorld 1 10) (c2Bundle 2 3 4 "7" "7_0" [])).2).sessionId =
        slcV (c2Bundle 2 3 4 "7" "7_0" []).identityKey 0 16 ∧
      (getSess (initiateSession (aliceWorld 1 10) (c2Bundle 2 3 4 "7" "7_0" [])).1
          (slcV (c2Bundle 2 3 4 "7" "7_0" []).identityKey 0 16)).isSome = true :=
  c9_sessions_keyed_by_identity_prefix.1 (aliceWorld 1 10) (c2Bundle 2 3 4 "7" "7_0" [])
    (okOrI (initiateSession (aliceWorld 1 10) (c2Bundle 2 3 4 "7" "7_0" [])).2) (by decide)
